import Mathlib

/-!
Verification development for the travel-agent Route Recommendation Engine.

Shallow embedding of `src/app/core/recommender.py` (class `RouteRecommender`),
`src/app/core/advanced_recommender.py` (class `AdvancedRouteRecommender`) and
the relevant constant of `src/app/core/config.py`.

Modelling conventions:
* Python floats are modelled as `ℚ` (the engine's arithmetic is +, -, *, /,
  comparisons and min/max; no float-rounding behaviour is claimed anywhere).
* `calculate_distance` in the source is the haversine great-circle formula
  (transcendental: sin/cos/asin/sqrt over ℝ).  The pipeline only ever passes
  its results around and compares them, so the embedding takes the distance
  function as an explicit parameter `dist : Dist`.  Theorems either hold for
  every `dist` (with the properties haversine guarantees — nonnegativity,
  zero on coincident points — as hypotheses) or use the concrete rational
  instance `merDist` below, which on catalogs lying on a single meridian is
  proportional to haversine, so every comparison the engine evaluates
  (partial distance < direct distance, detour ratio < 1.5, all of which are
  invariant under scaling) takes the same branch as in the source.
* Python dict mutation (`city["detour_ratio"] = ...`) is modelled by explicit
  state passing: functions that mutate `self.cities_data` return the updated
  catalog alongside their result.
* `list.sort` / `list.sort(reverse=True)` are stable sorts; they are embedded
  as Mathlib's stable `List.insertionSort` (a stable sort's output is
  uniquely determined by the key order and the input order, so any stable
  sort is extensionally the same function).
* Fallible code paths (a `None` coordinate reaching arithmetic would raise
  `TypeError`) are modelled with `Option`.
-/

namespace RouteRecommender

/-- Type of the distance function `calculate_distance(lat1, lng1, lat2, lng2)`. -/
abbrev Dist := ℚ → ℚ → ℚ → ℚ → ℚ

/-- One entry of `self.cities_data` (a JSON object).  `population` models
`city.get("population", 0)` (absent key = 0).  `detour` models the
`"detour_ratio"` key, absent (`none`) until `_find_intermediate_cities`
assigns it.  Keys never read by the engine (`country`) are omitted. -/
structure City where
  name : String
  lat : ℚ
  lng : ℚ
  population : ℚ
  detour : Option ℚ
deriving DecidableEq

/-- One entry of `self.attractions_data`. -/
structure Attraction where
  name : String
  city : String
  category : String
  lat : ℚ
  lng : ℚ
  rating : ℚ
deriving DecidableEq

/-- The `preferences: Dict[str, float]` argument: `some w` models the key
being present with weight `w`, `none` models an absent key. -/
structure Preferences where
  fastest : Option ℚ
  cheapest : Option ℚ
  scenic : Option ℚ
  quiet : Option ℚ
deriving DecidableEq

/-- A route dict as built by `recommend_routes` / `_create_route_with_stops`.
`rtype` is the `"type"` key; `intermediate` the `"intermediate_city"` key
(absent on the direct route); `score` is attached after construction (0
before `get_route_score` runs, mirroring the dict not yet having the key). -/
structure Route where
  rtype : String
  distance : ℚ
  duration : ℚ
  cost : ℚ
  attractions : List Attraction
  population : ℚ
  segments : List (String × String)
  intermediate : Option String
  score : ℚ
deriving DecidableEq

/-- Python's `str.lower()`, modelled as per-character lowercasing.  (The
library `String.toLower` is extensionally the same map but is written with
an accumulator that the kernel cannot evaluate.) -/
def lowerName (s : String) : String := String.mk (s.data.map Char.toLower)

/-- `find_city_coordinates`: first catalog entry whose lowercased name matches,
`(None, None)` when nothing matches. -/
def find_city_coordinates (cities : List City) (city_name : String) :
    Option ℚ × Option ℚ :=
  match cities.find? (fun c => lowerName c.name == lowerName city_name) with
  | some c => (some c.lat, some c.lng)
  | none => (none, none)

/-- Python truthiness of one element of `[origin_lat, origin_lng, dest_lat,
dest_lng]`: `None` and `0.0` are falsy, every other float is truthy. -/
def truthyCoord : Option ℚ → Bool
  | none => false
  | some q => decide (q ≠ 0)

/-- Python truthiness of the `budget: float = None` argument. -/
def truthyNum : Option ℚ → Bool
  | none => false
  | some q => decide (q ≠ 0)

/-- Python truthiness of the `duration_days: int = None` argument. -/
def truthyInt : Option ℤ → Bool
  | none => false
  | some n => decide (n ≠ 0)

/-- One `if "key" in preferences: score += preferences["key"] * sub_score`
step of `get_route_score`. -/
def prefStep (weight : Option ℚ) (sub score : ℚ) : ℚ :=
  match weight with
  | some w => score + w * sub
  | none => score

/-- `get_route_score`: weighted sum of the four sub-scores, each weight used
only when its key is present in the preferences dict.  (The local variable
`duration` read in the `"fastest"` branch of the source is never used there
and is omitted.) -/
def get_route_score (route : Route) (p : Preferences) : ℚ :=
  let score : ℚ := 0
  let score := prefStep p.fastest (1 / (1 + route.distance / 100)) score
  let score := prefStep p.cheapest (1 / (1 + route.cost / 1000)) score
  let score := prefStep p.scenic (min ((route.attractions.length : ℚ) / 10) 1) score
  let score := prefStep p.quiet (1 / (1 + route.population / 1000000)) score
  score

/-- Sum of the weights present in a preferences dict (the bound the engine
actually guarantees for `get_route_score`; there is no normalization). -/
def weightSum (p : Preferences) : ℚ :=
  p.fastest.getD 0 + p.cheapest.getD 0 + p.scenic.getD 0 + p.quiet.getD 0

/-- The direct-route dict of `recommend_routes` (lines 139-148), including the
`score` assignment. -/
def direct_route (origin destination : String) (direct_distance : ℚ)
    (p : Preferences) : Route :=
  let r : Route :=
    { rtype := "direct"
      distance := direct_distance
      duration := direct_distance / 80
      cost := direct_distance * (1/2)
      attractions := []
      population := 0
      segments := [(origin, destination)]
      intermediate := none
      score := 0 }
  { r with score := get_route_score r p }

/-- The acceptance test of `_find_intermediate_cities` for one catalog entry:
both partial distances strictly below the direct distance, and detour ratio
strictly below 1.5.  In the source the ratio is only computed after the two
partial-distance checks pass; `&&` short-circuits the same way.  (When the
direct distance is 0 the source could not reach the division, because the
haversine partial distances are nonnegative; in this total embedding `x / 0
= 0`, and the theorems that depend on this carry the nonnegativity of `dist`
as a hypothesis.) -/
def acceptsB (dist : Dist) (origin_lat origin_lng dest_lat dest_lng : ℚ)
    (c : City) : Bool :=
  let dist_from_origin := dist origin_lat origin_lng c.lat c.lng
  let dist_to_dest := dist c.lat c.lng dest_lat dest_lng
  let direct_dist := dist origin_lat origin_lng dest_lat dest_lng
  decide (dist_from_origin < direct_dist) && decide (dist_to_dest < direct_dist)
    && decide ((dist_from_origin + dist_to_dest) / direct_dist < 3/2)

/-- The detour ratio `(dist_from_origin + dist_to_dest) / direct_dist` of one
catalog entry. -/
def detourOf (dist : Dist) (origin_lat origin_lng dest_lat dest_lng : ℚ)
    (c : City) : ℚ :=
  (dist origin_lat origin_lng c.lat c.lng + dist c.lat c.lng dest_lat dest_lng)
    / dist origin_lat origin_lng dest_lat dest_lng

/-- Effect of one iteration of the `_find_intermediate_cities` loop on one
catalog dict: a qualifying city gets its `"detour_ratio"` key set (in place);
every other city is untouched. -/
def cityUpdate (dist : Dist) (origin_lat origin_lng dest_lat dest_lng : ℚ)
    (c : City) : City :=
  if acceptsB dist origin_lat origin_lng dest_lat dest_lng c then
    { c with detour := some (detourOf dist origin_lat origin_lng dest_lat dest_lng c) }
  else c

/-- Sort key of `intermediate_cities.sort(key=lambda x: x["detour_ratio"])`.
Every list element has the key set, so the `getD` default is never relevant. -/
def detourLe (a b : City) : Prop := a.detour.getD 0 ≤ b.detour.getD 0

instance : DecidableRel detourLe := fun a b =>
  inferInstanceAs (Decidable (a.detour.getD 0 ≤ b.detour.getD 0))

instance : IsTotal City detourLe :=
  ⟨fun a b => le_total (a.detour.getD 0) (b.detour.getD 0)⟩

instance : IsTrans City detourLe :=
  ⟨fun _ _ _ h1 h2 => le_trans h1 h2⟩

/-- `_find_intermediate_cities`.  First component: `self.cities_data` after
the call (the loop mutates qualifying city dicts in place).  Second
component: the returned list of accepted cities (the same, updated, dicts),
sorted ascending by detour ratio with Python's stable sort. -/
def find_intermediate_cities (dist : Dist)
    (origin_lat origin_lng dest_lat dest_lng : ℚ) (cities : List City) :
    List City × List City :=
  (cities.map (cityUpdate dist origin_lat origin_lng dest_lat dest_lng),
   List.insertionSort detourLe (cities.filterMap (fun c =>
     if acceptsB dist origin_lat origin_lng dest_lat dest_lng c then
       some (cityUpdate dist origin_lat origin_lng dest_lat dest_lng c)
     else none)))

/-- `_create_route_with_stops`.  The source re-resolves origin/destination; a
failed lookup would feed `None` into `calculate_distance` and raise
`TypeError`, modelled as `none` (in `recommend_routes` this point is only
reached after the coordinate guard has passed, so the lookup succeeds). -/
def _create_route_with_stops (dist : Dist) (attractions_data : List Attraction)
    (cities : List City) (origin destination : String) (p : Preferences)
    (intermediate_city : City) : Option Route :=
  let attractions := attractions_data.filter (fun a => a.city == intermediate_city.name)
  match find_city_coordinates cities origin, find_city_coordinates cities destination with
  | (some origin_lat, some origin_lng), (some dest_lat, some dest_lng) =>
    let dist1 := dist origin_lat origin_lng intermediate_city.lat intermediate_city.lng
    let dist2 := dist intermediate_city.lat intermediate_city.lng dest_lat dest_lng
    let total_distance := dist1 + dist2
    let r : Route :=
      { rtype := "with_stops"
        distance := total_distance
        duration := total_distance / 80 + (attractions.length : ℚ) * 2
        cost := total_distance * (1/2) + (attractions.length : ℚ) * 50
        attractions := attractions
        population := intermediate_city.population
        segments := [(origin, intermediate_city.name), (intermediate_city.name, destination)]
        intermediate := some intermediate_city.name
        score := 0 }
    some { r with score := get_route_score r p }
  | _, _ => none

/-- `settings.max_routes_per_request` from `src/app/core/config.py`. -/
def max_routes_per_request : ℕ := 5

/-- Sort order of `routes.sort(key=lambda x: x["score"], reverse=True)`:
descending by score, stable. -/
def scoreGe (a b : Route) : Prop := b.score ≤ a.score

instance : DecidableRel scoreGe := fun a b =>
  inferInstanceAs (Decidable (b.score ≤ a.score))

instance : IsTotal Route scoreGe := ⟨fun a b => le_total b.score a.score⟩

instance : IsTrans Route scoreGe := ⟨fun _ _ _ h1 h2 => le_trans h2 h1⟩

/-- `recommend_routes`.  Returns the result list together with
`self.cities_data` after the call (mutated by `_find_intermediate_cities`).
The coordinate guard is the source's `if not all([...])`, i.e. Python
truthiness of each of the four coordinates. -/
def recommend_routes (dist : Dist) (cities : List City)
    (attractions_data : List Attraction) (origin destination : String)
    (p : Preferences) (budget : Option ℚ) (duration_days : Option ℤ) :
    List Route × List City :=
  let oc := find_city_coordinates cities origin
  let dc := find_city_coordinates cities destination
  if truthyCoord oc.1 && truthyCoord oc.2 && truthyCoord dc.1 && truthyCoord dc.2 then
    let origin_lat := oc.1.getD 0
    let origin_lng := oc.2.getD 0
    let dest_lat := dc.1.getD 0
    let dest_lng := dc.2.getD 0
    let direct_distance := dist origin_lat origin_lng dest_lat dest_lng
    let direct := direct_route origin destination direct_distance p
    let fic := find_intermediate_cities dist origin_lat origin_lng dest_lat dest_lng cities
    let with_stops := (fic.2.take 3).filterMap
      (_create_route_with_stops dist attractions_data fic.1 origin destination p)
    let routes := direct :: with_stops
    let routes := List.insertionSort scoreGe routes
    let routes := if truthyNum budget then
        routes.filter (fun r => decide (r.cost ≤ budget.getD 0))
      else routes
    let routes := if truthyInt duration_days then
        routes.filter (fun r => decide (r.duration ≤ (duration_days.getD 0 : ℚ) * 24))
      else routes
    (routes.take max_routes_per_request, fic.1)
  else ([], cities)

/-- Concrete computable stand-in distance used for concrete instances; on a
catalog lying on one meridian (all longitudes equal) it equals the haversine
great-circle distance up to the positive factor 6371·π/180 per degree, and
every predicate the engine evaluates on distances is invariant under that
scaling. -/
def merDist : Dist := fun lat1 lng1 lat2 lng2 => |lat2 - lat1| + |lng2 - lng1|

end RouteRecommender

namespace AdvancedRouteRecommender

/-- The four seasons of `self.seasonal_factors`. -/
inductive Season
  | spring
  | summer
  | fall
  | winter
deriving DecidableEq

/-- `self.seasonal_factors[season]['tourism_factor']` (the only factor the
scoring path reads; the table always contains the key, so the `1.0` default
of the source's `.get` is dead). -/
def seasonTourismFactor : Season → ℚ
  | .spring => 13/10
  | .summer => 9/10
  | .fall => 12/10
  | .winter => 8/10

/-- `_get_current_season`: the ambient `datetime.now().month` is passed in as
the `month` parameter. -/
def getCurrentSeason (month : ℕ) : Season :=
  if month = 3 ∨ month = 4 ∨ month = 5 then .spring
  else if month = 6 ∨ month = 7 ∨ month = 8 then .summer
  else if month = 9 ∨ month = 10 ∨ month = 11 then .fall
  else .winter

/-- The `UserPreferences` dataclass. -/
structure UserPreferences where
  budget_range : String
  travel_style : String
  accessibility_needs : List String
  cultural_interests : List String
  seasonal_preferences : List String
  group_size : ℤ
  max_duration_days : ℤ
  preferred_transport : List String
deriving DecidableEq

/-- The `RouteConstraints` dataclass. -/
structure RouteConstraints where
  origin_city_id : ℤ
  destination_city_id : ℤ
  max_budget : Option ℤ
  max_duration_hours : Option ℚ
  must_visit_cities : List ℤ
  avoid_cities : List ℤ
  seasonal_restrictions : List String
deriving DecidableEq

/-- One row of the `route_segments ⋈ cities` query in `_get_route_segments`.
The row fields the engine reads are the segment attributes, the two costs it
sums, and the flags `_calculate_cultural_significance` tests. -/
structure SegmentRow where
  origin_city_id : ℤ
  destination_city_id : ℤ
  distance_km : ℚ
  duration_hours : ℚ
  toll_cost : ℚ
  fuel_cost : ℚ
  scenic_rating : ℚ
  safety_rating : ℚ
  road_type : String
  unesco_heritage : Bool
  historical_period : Bool
  religious_significance : Bool
deriving DecidableEq

/-- The `RouteSegment` dataclass.  The `seasonal_factors` dict field is
omitted: it is written by `_get_route_segments` but never read anywhere. -/
structure RouteSegment where
  origin_city_id : ℤ
  destination_city_id : ℤ
  distance_km : ℚ
  duration_hours : ℚ
  cost_toman : ℚ
  scenic_rating : ℚ
  cultural_significance : ℚ
  safety_rating : ℚ
  road_type : String
deriving DecidableEq

/-- `_calculate_cultural_significance`: sum of the cultural weights of the
flags present on the row (`unesco_heritage` 1.5, `historical` 1.3,
`religious` 1.2), capped at 5.0. -/
def _calculate_cultural_significance (row : SegmentRow) : ℚ :=
  let significance : ℚ := 0
  let significance := if row.unesco_heritage then significance + 3/2 else significance
  let significance := if row.historical_period then significance + 13/10 else significance
  let significance := if row.religious_significance then significance + 12/10 else significance
  min significance 5

/-- `_get_route_segments`: the SQL `WHERE` clause as a filter over the segment
table, then the per-row construction of `RouteSegment` (with
`cost_toman = toll_cost + fuel_cost`). -/
def _get_route_segments (table : List SegmentRow) (c : RouteConstraints) :
    List RouteSegment :=
  (table.filter (fun row =>
    (row.origin_city_id == c.origin_city_id
        || row.destination_city_id == c.destination_city_id)
      && !(c.avoid_cities.contains row.origin_city_id)
      && !(c.avoid_cities.contains row.destination_city_id))).map
  (fun row =>
    { origin_city_id := row.origin_city_id
      destination_city_id := row.destination_city_id
      distance_km := row.distance_km
      duration_hours := row.duration_hours
      cost_toman := row.toll_cost + row.fuel_cost
      scenic_rating := row.scenic_rating
      cultural_significance := _calculate_cultural_significance row
      safety_rating := row.safety_rating
      road_type := row.road_type })

/-- A route dict of `_generate_route_combinations`; `score` is attached later
by `recommend_routes` (0 until then, mirroring the absent key). -/
structure ARoute where
  rtype : String
  segments : List RouteSegment
  total_distance : ℚ
  total_duration : ℚ
  total_cost : ℚ
  waypoints : List ℤ
  score : ℚ
deriving DecidableEq

/-- `_generate_route_combinations`: direct routes (one matching segment), then
all two-segment chains origin → waypoint → destination, in the source's
nested-loop order. -/
def _generate_route_combinations (segments : List RouteSegment)
    (c : RouteConstraints) : List ARoute :=
  let directs := segments.filterMap (fun s =>
    if s.origin_city_id = c.origin_city_id
        ∧ s.destination_city_id = c.destination_city_id then
      some { rtype := "direct", segments := [s], total_distance := s.distance_km,
             total_duration := s.duration_hours, total_cost := s.cost_toman,
             waypoints := [], score := 0 }
    else none)
  let withWaypoints := segments.flatMap (fun s1 => segments.filterMap (fun s2 =>
    if s1.origin_city_id = c.origin_city_id
        ∧ s1.destination_city_id = s2.origin_city_id
        ∧ s2.destination_city_id = c.destination_city_id then
      some { rtype := "with_waypoints", segments := [s1, s2],
             total_distance := s1.distance_km + s2.distance_km,
             total_duration := s1.duration_hours + s2.duration_hours,
             total_cost := s1.cost_toman + s2.cost_toman,
             waypoints := [s1.destination_city_id], score := 0 }
    else none))
  directs ++ withWaypoints

/-- `_calculate_cost_score`: bucketed against the budget-tier ceiling. -/
def _calculate_cost_score (cost : ℚ) (budget_range : String) : ℚ :=
  let limit : ℚ :=
    if budget_range == "low" then 200000
    else if budget_range == "medium" then 500000
    else if budget_range == "high" then 1000000
    else if budget_range == "luxury" then 2000000
    else 500000
  if cost ≤ limit * (1/2) then 5
  else if cost ≤ limit * (8/10) then 4
  else if cost ≤ limit then 3
  else if cost ≤ limit * (3/2) then 2
  else 1

/-- `_calculate_cultural_score`: per-segment cultural significance plus a 0.5
per-segment bonus when the caller declared cultural interests, averaged over
the segments and capped at 5.  (With an empty segment list the source's
division raises `ZeroDivisionError`; callers guard for that, see
`_calculate_route_score`.) -/
def _calculate_cultural_score (route : ARoute) (up : UserPreferences) : ℚ :=
  let bonus : ℚ := if up.cultural_interests.isEmpty then 0 else 1/2
  min (((route.segments.map (fun seg => seg.cultural_significance + bonus)).sum)
      / (route.segments.length : ℚ)) 5

/-- `_calculate_scenic_score`: average per-segment scenic rating, capped at 5. -/
def _calculate_scenic_score (route : ARoute) : ℚ :=
  min (((route.segments.map (fun seg => seg.scenic_rating)).sum)
      / (route.segments.length : ℚ)) 5

/-- `_get_seasonal_adjustment` (its `route` argument is never read). -/
def _get_seasonal_adjustment (month : ℕ) : ℚ :=
  seasonTourismFactor (getCurrentSeason month)

/-- `_apply_user_preferences`: travel-style multiplier (`budget` ⇒ ×0.8 on
expensive routes, else `luxury` ⇒ ×0.9 on cheap routes) and the ×1.1
group-size multiplier. -/
def _apply_user_preferences (route : ARoute) (up : UserPreferences) : ℚ :=
  let factor : ℚ := 1
  let factor :=
    if up.travel_style == "budget" then
      (if 300000 < route.total_cost then factor * (8/10) else factor)
    else if up.travel_style == "luxury" then
      (if route.total_cost < 500000 then factor * (9/10) else factor)
    else factor
  if 4 < up.group_size then factor * (11/10) else factor

/-- The learned scorer: `self.scaler.transform` followed by
`self.ml_model.predict`, as a black box from the feature vector to either a
prediction or a raised exception.  `none` at the call sites models
`self.ml_model is None`. -/
abbrev MlModel := List ℚ → Except Unit ℚ

/-- The feature vector `_get_ml_score` builds (note it has 8 entries while
training extracts 9; a mismatch raised by the scaler is one of the exceptions
the `Except` models). -/
def mlFeatures (route : ARoute) (up : UserPreferences) : List ℚ :=
  [route.total_distance, route.total_duration, route.total_cost,
   _calculate_scenic_score route, _calculate_cultural_score route up, 3, 1, 1]

/-- `_get_ml_score`: 3.0 when the model is missing, the prediction clipped to
[0, 5] when it succeeds, and 3.0 when anything in the `try` block raises. -/
def _get_ml_score (ml : Option MlModel) (route : ARoute)
    (up : UserPreferences) : ℚ :=
  match ml with
  | none => 3
  | some predict =>
    match predict (mlFeatures route up) with
    | .ok p => max 0 (min 5 p)
    | .error _ => 3

/-- The rule-based composite of `_calculate_route_score` before the optional
learned blend and before the final cap: the five weighted sub-scores, times
the seasonal adjustment, times the user-preference factor. -/
def base_score (month : ℕ) (route : ARoute) (up : UserPreferences) : ℚ :=
  let distance_score := max 0 (5 - route.total_distance / 100)
  let duration_score := max 0 (5 - route.total_duration / 2)
  let cost_score := _calculate_cost_score route.total_cost up.budget_range
  let cultural_score := _calculate_cultural_score route up
  let scenic_score := _calculate_scenic_score route
  (distance_score * (2/10) + duration_score * (2/10) + cost_score * (25/100)
      + cultural_score * (2/10) + scenic_score * (15/100))
    * _get_seasonal_adjustment month * _apply_user_preferences route up

/-- `_calculate_route_score`.  A route with no segments makes the two average
computations raise `ZeroDivisionError`, which the enclosing `except` turns
into 0.0; that is the `isEmpty` branch.  Otherwise: rule-based composite,
blended `0.7/0.3` with the ML score only when a model is present, capped at
5.0 at the very end. -/
def _calculate_route_score (month : ℕ) (ml : Option MlModel) (route : ARoute)
    (up : UserPreferences) : ℚ :=
  if route.segments.isEmpty then 0
  else
    match ml with
    | none => min (base_score month route up) 5
    | some predict =>
      min (base_score month route up * (7/10)
        + _get_ml_score (some predict) route up * (3/10)) 5

/-- Sort order of `scored_routes.sort(key=lambda x: x['score'], reverse=True)`. -/
def scoreGeA (a b : ARoute) : Prop := b.score ≤ a.score

instance : DecidableRel scoreGeA := fun a b =>
  inferInstanceAs (Decidable (b.score ≤ a.score))

instance : IsTotal ARoute scoreGeA := ⟨fun a b => le_total b.score a.score⟩

instance : IsTrans ARoute scoreGeA := ⟨fun _ _ _ h1 h2 => le_trans h2 h1⟩

/-- `AdvancedRouteRecommender.recommend_routes`: segments from the table,
combinations, scoring (the dict gains its `score` key), stable descending
sort, truncation to `num_recommendations`.  The ambient month and the
optional learned model are explicit parameters. -/
def recommend_routes (table : List SegmentRow) (month : ℕ) (ml : Option MlModel)
    (up : UserPreferences) (c : RouteConstraints)
    (num_recommendations : ℕ) : List ARoute :=
  let segments := _get_route_segments table c
  let combos := _generate_route_combinations segments c
  let scored := combos.map (fun r =>
    { r with score := _calculate_route_score month ml r up })
  (List.insertionSort scoreGeA scored).take num_recommendations

end AdvancedRouteRecommender

/-! ## Concrete data used by witnesses and counterexamples -/

namespace Ex

open RouteRecommender AdvancedRouteRecommender

/-- A one-entry catalog. -/
def cityA : City := ⟨"a", 1, 1, 0, none⟩

/-- Tehran with its real (integer-truncated) coordinates. -/
def cityTehran : City := ⟨"tehran", 35, 51, 0, none⟩

/-- Origin of the meridian catalogs (latitude 10, longitude 10). -/
def cityO : City := ⟨"o", 10, 10, 0, none⟩

/-- Destination of the meridian catalogs (latitude 50, same longitude). -/
def cityB : City := ⟨"b", 50, 10, 0, none⟩

/-- Midpoint waypoint: partial distances 20 and 20 against direct distance 40,
detour ratio 1 — accepted by the generator. -/
def cityW : City := ⟨"w", 30, 10, 0, none⟩

/-- A location past the destination on the same meridian: partial distances
45 and 5 against direct distance 40, detour ratio 45/40+5/40 = 5/4 < 3/2, but
the first partial distance exceeds the direct distance. -/
def cityL : City := ⟨"l", 55, 10, 0, none⟩

/-- A location on the equator: resolvable, but its latitude 0 is falsy. -/
def cityE : City := ⟨"e", 0, 20, 0, none⟩

/-- A companion destination for `cityE` at distance 30. -/
def cityB2 : City := ⟨"b2", 30, 20, 0, none⟩

/-- Preferences `{"fastest": 1.0}`. -/
def prefsFast1 : Preferences := ⟨some 1, none, none, none⟩

/-- Preferences `{"fastest": 6.0}` (weights sum to 6). -/
def prefsFast6 : Preferences := ⟨some 6, none, none, none⟩

/-- An empty preferences dict. -/
def prefsNone : Preferences := ⟨none, none, none, none⟩

/-- A self-loop row of the segment table (origin id = destination id = 1). -/
def rowSelfLoop : SegmentRow := ⟨1, 1, 10, 1, 0, 0, 0, 0, "", false, false, false⟩

/-- An ordinary row from city 1 to city 2. -/
def rowDirect : SegmentRow := ⟨1, 2, 10, 1, 0, 0, 0, 0, "", false, false, false⟩

/-- Plain user preferences: medium budget, no style, group of 1. -/
def upPlain : UserPreferences := ⟨"medium", "", [], [], [], 1, 1, []⟩

/-- Same but with a group of 5, triggering the ×1.1 factor. -/
def upGroup5 : UserPreferences := ⟨"medium", "", [], [], [], 5, 1, []⟩

/-- Constraints from city 1 to city 2, empty avoid-set. -/
def consOneTwo : RouteConstraints := ⟨1, 2, none, none, [], [], []⟩

/-- A maximal-scoring segment: zero distance/duration, cheap cost, scenic and
cultural ratings at 5. -/
def segTop : RouteSegment := ⟨1, 2, 0, 0, 100000, 5, 5, 0, ""⟩

/-- A weak segment: 500 km, 10 h, cost 1,000,000. -/
def segFar : RouteSegment := ⟨1, 2, 500, 10, 1000000, 0, 0, 0, ""⟩

/-- The direct route over `segTop`; its rule-based composite before the final
cap is 5 × 1.3 (April) × 1.1 (group of 5) = 7.15. -/
def routeTop : ARoute := ⟨"direct", [segTop], 0, 0, 100000, [], 0⟩

/-- The direct route over `segFar`; its rule-based composite is small. -/
def routeFar : ARoute := ⟨"direct", [segFar], 500, 10, 1000000, [], 0⟩

/-- First leg 1→3 of a two-leg table with no self-loops. -/
def rowLeg1 : SegmentRow := ⟨1, 3, 10, 1, 0, 0, 0, 0, "", false, false, false⟩

/-- Second leg 3→2 of the same table. -/
def rowLeg2 : SegmentRow := ⟨3, 2, 10, 1, 0, 0, 0, 0, "", false, false, false⟩

/-- A zero-valued simple route dict (used to instantiate score bounds). -/
def routeZero : Route := ⟨"direct", 0, 0, 0, [], 0, [("a", "a")], none, 0⟩

/-- A learned scorer that predicts 0 on every input. -/
def mlZero : MlModel := fun _ => Except.ok 0

/-- A learned scorer whose `predict` raises on every input. -/
def mlRaise : MlModel := fun _ => Except.error ()

end Ex

namespace RouteRecommender

/-- The coordinate guard of `recommend_routes` (`if not all([...])`), as one
Bool. -/
def guardB (cities : List City) (origin destination : String) : Bool :=
  truthyCoord (find_city_coordinates cities origin).1
    && truthyCoord (find_city_coordinates cities origin).2
    && truthyCoord (find_city_coordinates cities destination).1
    && truthyCoord (find_city_coordinates cities destination).2

/-- The candidate list `routes` of `recommend_routes` at the point just
before sorting: the direct candidate, then the materialized with-stop
candidates of the first three accepted waypoints. -/
def candidates (dist : Dist) (cities : List City)
    (attractions_data : List Attraction) (origin destination : String)
    (p : Preferences) : List Route :=
  let oc := find_city_coordinates cities origin
  let dc := find_city_coordinates cities destination
  let origin_lat := oc.1.getD 0
  let origin_lng := oc.2.getD 0
  let dest_lat := dc.1.getD 0
  let dest_lng := dc.2.getD 0
  let direct_distance := dist origin_lat origin_lng dest_lat dest_lng
  let direct := direct_route origin destination direct_distance p
  let fic := find_intermediate_cities dist origin_lat origin_lng dest_lat dest_lng cities
  direct :: (fic.2.take 3).filterMap
    (_create_route_with_stops dist attractions_data fic.1 origin destination p)

/-- `self.cities_data` after a guard-passing call. -/
def updatedCatalog (dist : Dist) (cities : List City)
    (origin destination : String) : List City :=
  let oc := find_city_coordinates cities origin
  let dc := find_city_coordinates cities destination
  (find_intermediate_cities dist (oc.1.getD 0) (oc.2.getD 0) (dc.1.getD 0)
    (dc.2.getD 0) cities).1

/-- The `if budget:` hard filter of `recommend_routes`. -/
def budgetFilter (budget : Option ℚ) (routes : List Route) : List Route :=
  if truthyNum budget then routes.filter (fun r => decide (r.cost ≤ budget.getD 0))
  else routes

/-- The `if duration_days:` hard filter of `recommend_routes`. -/
def durationFilter (duration_days : Option ℤ) (routes : List Route) : List Route :=
  if truthyInt duration_days then
    routes.filter (fun r => decide (r.duration ≤ (duration_days.getD 0 : ℚ) * 24))
  else routes

end RouteRecommender

/-! ## Claim theorems -/

open RouteRecommender AdvancedRouteRecommender Ex

unseal Rat.add Rat.mul Rat.inv Rat.sub in
/-- C10: passing `budget = 0` or `duration_days = 0` skips the corresponding
hard filter entirely (the source tests truthiness of the argument, not
whether it was supplied): the call with both zeros is literally the same
function of the remaining arguments as the call with both absent, and on a
concrete catalog the zero-budget zero-duration call still returns a
candidate of positive cost and positive duration. -/
theorem C10_zero_budget_and_duration_skip_filters :
    (∀ (dist : Dist) (cities : List City) (attractions_data : List Attraction)
        (origin destination : String) (p : Preferences),
      RouteRecommender.recommend_routes dist cities attractions_data origin
          destination p (some 0) (some 0)
        = RouteRecommender.recommend_routes dist cities attractions_data origin
          destination p none none)
    ∧ ((RouteRecommender.recommend_routes merDist [cityO, cityB] [] "o" "b"
          prefsFast1 (some 0) (some 0)).1.all
        (fun r => decide (0 < r.cost) && decide (0 < r.duration)) = true
      ∧ (RouteRecommender.recommend_routes merDist [cityO, cityB] [] "o" "b"
          prefsFast1 (some 0) (some 0)).1 ≠ []) := by
  refine ⟨?_, ?_, ?_⟩
  · intro dist cities attractions_data origin destination p
    rfl
  · decide
  · decide

/-- C4: when the origin name or the destination name has no (case-insensitive)
match in the catalog, `recommend_routes` returns the empty candidate list.
The embedding is total, so no exception can be modelled as escaping this
path: the unresolved-location case is exactly the `([], cities)` branch. -/
theorem C4_unresolved_location_returns_empty
    (dist : Dist) (cities : List City) (attractions_data : List Attraction)
    (origin destination : String) (p : Preferences)
    (budget : Option ℚ) (duration_days : Option ℤ)
    (h : cities.find? (fun c => lowerName c.name == lowerName origin) = none
       ∨ cities.find? (fun c => lowerName c.name == lowerName destination) = none) :
    (RouteRecommender.recommend_routes dist cities attractions_data origin
        destination p budget duration_days).1 = [] := by
  unfold RouteRecommender.recommend_routes
  rcases h with h | h <;> simp [find_city_coordinates, h, truthyCoord]

unseal Rat.add Rat.mul Rat.inv Rat.sub in
/-- Witness for C4 at a concrete input: `"x"` does not resolve in the
one-entry catalog `[cityTehran]`, and the call returns `[]`. -/
theorem C4_witness :
    [cityTehran].find? (fun c => lowerName c.name == lowerName "x") = none
    ∧ (RouteRecommender.recommend_routes merDist [cityTehran] [] "x" "tehran"
        prefsNone none none).1 = [] :=
  ⟨by decide,
   C4_unresolved_location_returns_empty merDist [cityTehran] [] "x" "tehran"
     prefsNone none none (Or.inl (by decide))⟩

/-- `cityUpdate` touches only the `detour` field. -/
theorem cityUpdate_fields (dist : Dist) (a b c' d' : ℚ) (c : City) :
    c.name = (cityUpdate dist a b c' d' c).name
    ∧ c.lat = (cityUpdate dist a b c' d' c).lat
    ∧ c.lng = (cityUpdate dist a b c' d' c).lng
    ∧ c.population = (cityUpdate dist a b c' d' c).population := by
  unfold cityUpdate
  split <;> exact ⟨rfl, rfl, rfl, rfl⟩

unseal Rat.add Rat.mul Rat.inv Rat.sub in
/-- Counterexample to C8: a recommendation call over the three-city meridian
catalog (`cityW` is a qualifying waypoint) leaves `self.cities_data` changed:
`_find_intermediate_cities` stores the `"detour_ratio"` key on `cityW`. -/
theorem C8_counterexample :
    (RouteRecommender.recommend_routes merDist [cityO, cityB, cityW] [] "o" "b"
      prefsFast1 none none).2 ≠ [cityO, cityB, cityW] := by decide

/-- C8 amended: a recommendation call never changes the catalog's length or
order, nor any entry's name, coordinates or population; the only mutation is
the `detour_ratio` bookkeeping key that `_find_intermediate_cities` writes on
entries passing the waypoint acceptance test. -/
theorem C8_amended_catalog_mutated_only_in_detour_field
    (dist : Dist) (cities : List City) (attractions_data : List Attraction)
    (origin destination : String) (p : Preferences)
    (budget : Option ℚ) (duration_days : Option ℤ) :
    List.Forall₂
      (fun c c' : City => c.name = c'.name ∧ c.lat = c'.lat ∧ c.lng = c'.lng
        ∧ c.population = c'.population)
      cities
      (RouteRecommender.recommend_routes dist cities attractions_data origin
        destination p budget duration_days).2 := by
  simp only [RouteRecommender.recommend_routes]
  split
  · exact List.forall₂_map_right_iff.mpr
      (List.forall₂_same.mpr (fun c _ => cityUpdate_fields dist _ _ _ _ c))
  · exact List.forall₂_same.mpr (fun c _ => ⟨rfl, rfl, rfl, rfl⟩)

/-- C9: when origin and destination are the same resolvable name (with truthy
coordinates), the direct distance is 0, no catalog entry passes even the
first strict partial-distance check (so the detour-ratio division is never
reached), no waypoint candidate is produced, and the call returns exactly
the trivial direct candidate, whose distance is 0. -/
theorem C9_same_origin_destination_trivial_direct
    (dist : Dist) (cities : List City) (attractions_data : List Attraction)
    (origin : String) (p : Preferences) (la ln : ℚ)
    (ho : find_city_coordinates cities origin = (some la, some ln))
    (hla : la ≠ 0) (hln : ln ≠ 0)
    (hzero : dist la ln la ln = 0)
    (hnn : ∀ a b : ℚ, 0 ≤ dist la ln a b) :
    (RouteRecommender.recommend_routes dist cities attractions_data origin
        origin p none none).1 = [direct_route origin origin 0 p]
      ∧ (direct_route origin origin 0 p).distance = 0
      ∧ (find_intermediate_cities dist la ln la ln cities).2 = []
      ∧ ∀ c ∈ cities, ¬ dist la ln c.lat c.lng < dist la ln la ln := by
  have hlt : ∀ c : City, ¬ dist la ln c.lat c.lng < dist la ln la ln := by
    intro c
    rw [hzero]
    exact not_lt.mpr (hnn _ _)
  have hacc : ∀ c : City, acceptsB dist la ln la ln c = false := by
    intro c
    unfold acceptsB
    simp [hlt c]
  have hfm : cities.filterMap (fun c =>
      if acceptsB dist la ln la ln c then some (cityUpdate dist la ln la ln c)
      else none) = [] := by
    rw [List.filterMap_eq_nil_iff]
    intro c _
    simp [hacc c]
  have hfic : (find_intermediate_cities dist la ln la ln cities).2 = [] := by
    unfold find_intermediate_cities
    simp [hfm]
  refine ⟨?_, rfl, hfic, fun c _ => hlt c⟩
  simp only [RouteRecommender.recommend_routes, ho, truthyCoord]
  simp [hla, hln, hfic, hzero, truthyNum, truthyInt, max_routes_per_request,
    List.insertionSort, List.orderedInsert]

unseal Rat.add Rat.mul Rat.inv Rat.sub in
/-- Witness for C9 at a concrete input: origin = destination = `"a"` over the
one-entry catalog. -/
theorem C9_witness :
    (RouteRecommender.recommend_routes merDist [cityA] [] "a" "a" prefsNone
        none none).1 = [direct_route "a" "a" 0 prefsNone]
      ∧ (direct_route "a" "a" 0 prefsNone).distance = 0
      ∧ (find_intermediate_cities merDist 1 1 1 1 [cityA]).2 = []
      ∧ ∀ c ∈ [cityA], ¬ merDist 1 1 c.lat c.lng < merDist 1 1 1 1 :=
  C9_same_origin_destination_trivial_direct merDist [cityA] [] "a" prefsNone 1 1
    (by decide) (by decide) (by decide) (by decide)
    (fun a b => by unfold merDist; positivity)

/-- Bounds for one accumulation step of `get_route_score`: a nonnegative
weight times a sub-score in [0, 1] adds between 0 and the weight. -/
theorem prefStep_bounds (w : Option ℚ) (sub acc bound : ℚ)
    (hacc0 : 0 ≤ acc) (haccb : acc ≤ bound) (h0 : 0 ≤ sub) (h1 : sub ≤ 1)
    (hw : ∀ x, w = some x → 0 ≤ x) :
    0 ≤ prefStep w sub acc ∧ prefStep w sub acc ≤ bound + w.getD 0 := by
  cases w with
  | none => exact ⟨hacc0, by simpa using haccb⟩
  | some x =>
    have hx := hw x rfl
    refine ⟨add_nonneg hacc0 (mul_nonneg hx h0), ?_⟩
    simpa using add_le_add haccb (mul_le_of_le_one_right hx h1)

/-- The reciprocal sub-scores `1 / (1 + x)` of `get_route_score` lie in
(0, 1] for nonnegative `x`. -/
theorem inv_one_add_bounds (x : ℚ) (hx : 0 ≤ x) :
    0 ≤ 1 / (1 + x) ∧ 1 / (1 + x) ≤ 1 := by
  have h1 : (0:ℚ) < 1 + x := by linarith
  refine ⟨by positivity, ?_⟩
  rw [div_le_one h1]
  linarith

/-- `get_route_score` is nonnegative and bounded by the sum of the supplied
weights (each sub-score lies in [0, 1]); nothing caps it at 5. -/
theorem get_route_score_bounds (route : Route) (p : Preferences)
    (hd : 0 ≤ route.distance) (hc : 0 ≤ route.cost) (hpop : 0 ≤ route.population)
    (hw : ∀ x, p.fastest = some x ∨ p.cheapest = some x ∨ p.scenic = some x
        ∨ p.quiet = some x → 0 ≤ x) :
    0 ≤ get_route_score route p ∧ get_route_score route p ≤ weightSum p := by
  have hf := inv_one_add_bounds (route.distance / 100) (by positivity)
  have hch := inv_one_add_bounds (route.cost / 1000) (by positivity)
  have hqt := inv_one_add_bounds (route.population / 1000000) (by positivity)
  have hs : 0 ≤ min ((route.attractions.length : ℚ) / 10) 1
      ∧ min ((route.attractions.length : ℚ) / 10) 1 ≤ 1 :=
    ⟨le_min (by positivity) (by norm_num), min_le_right _ _⟩
  have s1 := prefStep_bounds p.fastest (1 / (1 + route.distance / 100)) 0 0
    le_rfl le_rfl hf.1 hf.2 (fun x hx => hw x (Or.inl hx))
  have s2 := prefStep_bounds p.cheapest (1 / (1 + route.cost / 1000)) _ _
    s1.1 s1.2 hch.1 hch.2 (fun x hx => hw x (Or.inr (Or.inl hx)))
  have s3 := prefStep_bounds p.scenic (min ((route.attractions.length : ℚ) / 10) 1) _ _
    s2.1 s2.2 hs.1 hs.2 (fun x hx => hw x (Or.inr (Or.inr (Or.inl hx))))
  have s4 := prefStep_bounds p.quiet (1 / (1 + route.population / 1000000)) _ _
    s3.1 s3.2 hqt.1 hqt.2 (fun x hx => hw x (Or.inr (Or.inr (Or.inr hx))))
  refine ⟨s4.1, le_trans s4.2 ?_⟩
  unfold weightSum
  ring_nf
  exact le_rfl

/-- The bucketed cost score always lands in {1, 2, 3, 4, 5} ⊆ [0, 5]. -/
theorem cost_score_bounds (cost : ℚ) (br : String) :
    0 ≤ _calculate_cost_score cost br ∧ _calculate_cost_score cost br ≤ 5 := by
  unfold _calculate_cost_score
  split_ifs <;> (dsimp only []; split_ifs <;> norm_num)

/-- The cultural score is in [0, 5] when segment significances are
nonnegative (holds vacuously for an empty segment list, where the modelled
division yields 0). -/
theorem cultural_score_bounds (r : ARoute) (up : UserPreferences)
    (hseg : ∀ s ∈ r.segments, 0 ≤ s.cultural_significance) :
    0 ≤ _calculate_cultural_score r up ∧ _calculate_cultural_score r up ≤ 5 := by
  unfold _calculate_cultural_score
  refine ⟨le_min ?_ (by norm_num), min_le_right _ _⟩
  refine div_nonneg (List.sum_nonneg ?_) (by positivity)
  intro q hq
  simp only [List.mem_map] at hq
  obtain ⟨s, hs, rfl⟩ := hq
  have := hseg s hs
  split_ifs <;> linarith

/-- The scenic score is in [0, 5] when segment ratings are nonnegative. -/
theorem scenic_score_bounds (r : ARoute)
    (hseg : ∀ s ∈ r.segments, 0 ≤ s.scenic_rating) :
    0 ≤ _calculate_scenic_score r ∧ _calculate_scenic_score r ≤ 5 := by
  unfold _calculate_scenic_score
  refine ⟨le_min ?_ (by norm_num), min_le_right _ _⟩
  refine div_nonneg (List.sum_nonneg ?_) (by positivity)
  intro q hq
  simp only [List.mem_map] at hq
  obtain ⟨s, hs, rfl⟩ := hq
  exact hseg s hs

/-- Every seasonal tourism factor is positive. -/
theorem seasonal_adjustment_pos (month : ℕ) :
    0 < _get_seasonal_adjustment month := by
  unfold _get_seasonal_adjustment
  cases getCurrentSeason month <;> norm_num [seasonTourismFactor]

/-- Every travel-style/group-size multiplier is positive. -/
theorem user_pref_factor_pos (r : ARoute) (up : UserPreferences) :
    0 < _apply_user_preferences r up := by
  unfold _apply_user_preferences
  split_ifs <;> norm_num

/-- `_get_ml_score` always lands in [0, 5] (3 when missing or raising, the
clipped prediction otherwise). -/
theorem ml_score_bounds (ml : Option MlModel) (r : ARoute)
    (up : UserPreferences) :
    0 ≤ _get_ml_score ml r up ∧ _get_ml_score ml r up ≤ 5 := by
  unfold _get_ml_score
  rcases ml with _ | f
  · norm_num
  · dsimp only
    cases hf : f (mlFeatures r up) with
    | error e => exact ⟨by norm_num, by norm_num⟩
    | ok q => exact ⟨le_max_left _ _, max_le (by norm_num) (min_le_left _ _)⟩

/-- The rule-based composite (pre-blend, pre-cap) is nonnegative when the
per-segment ratings are. -/
theorem base_score_nonneg (month : ℕ) (r : ARoute) (up : UserPreferences)
    (hseg : ∀ s ∈ r.segments, 0 ≤ s.scenic_rating ∧ 0 ≤ s.cultural_significance) :
    0 ≤ base_score month r up := by
  unfold base_score
  have hcost := cost_score_bounds r.total_cost up.budget_range
  have hcult := cultural_score_bounds r up (fun s hs => (hseg s hs).2)
  have hscen := scenic_score_bounds r (fun s hs => (hseg s hs).1)
  have h1 : (0:ℚ) ≤ max 0 (5 - r.total_distance / 100) := le_max_left _ _
  have h2 : (0:ℚ) ≤ max 0 (5 - r.total_duration / 2) := le_max_left _ _
  have hsum : (0:ℚ) ≤ max 0 (5 - r.total_distance / 100) * (2/10)
      + max 0 (5 - r.total_duration / 2) * (2/10)
      + _calculate_cost_score r.total_cost up.budget_range * (25/100)
      + _calculate_cultural_score r up * (2/10)
      + _calculate_scenic_score r * (15/100) := by
    have := hcost.1
    have := hcult.1
    have := hscen.1
    positivity
  exact mul_nonneg (mul_nonneg hsum (seasonal_adjustment_pos month).le)
    (user_pref_factor_pos r up).le

/-- `_calculate_route_score` always lands in [0, 5] when the per-segment
ratings are nonnegative. -/
theorem calc_route_score_bounds (month : ℕ) (ml : Option MlModel) (r : ARoute)
    (up : UserPreferences)
    (hseg : ∀ s ∈ r.segments, 0 ≤ s.scenic_rating ∧ 0 ≤ s.cultural_significance) :
    0 ≤ _calculate_route_score month ml r up
      ∧ _calculate_route_score month ml r up ≤ 5 := by
  unfold _calculate_route_score
  split
  · norm_num
  · have hb := base_score_nonneg month r up hseg
    rcases ml with _ | f
    · exact ⟨le_min hb (by norm_num), min_le_right _ _⟩
    · have hm := ml_score_bounds (some f) r up
      refine ⟨le_min ?_ (by norm_num), min_le_right _ _⟩
      have := hm.1
      positivity

unseal Rat.add Rat.mul Rat.inv Rat.sub in
/-- Counterexample to C1: the claim holds the score of every candidate
returned by a recommendation call inside [0, 5] for every weight vector
("the engine normalizes internally").  The simple engine does not normalize
and has no cap: with weights `{"fastest": 6.0}` (sum 6, which the claim's
premise allows) the call returns a candidate whose attached score is above
5. -/
theorem C1_counterexample :
    ∃ r ∈ (RouteRecommender.recommend_routes merDist [cityTehran] []
      "tehran" "tehran" prefsFast6 none none).1, ¬ r.score ≤ 5 := by decide

/-- C1 amended: the advanced scorer's attached score does lie in [0, 5]
(given the catalog invariant that per-segment scenic and cultural ratings
are nonnegative), but the simple engine's `get_route_score` is only bounded
below by 0 and above by the *sum of the supplied weights* — there is no
internal normalization, so the [0, 5] bound holds only when the weights sum
to at most 5. -/
theorem C1_amended_score_bounds
    (month : ℕ) (ml : Option MlModel) (aroute : ARoute)
    (up : UserPreferences) (route : Route) (p : Preferences)
    (hseg : ∀ s ∈ aroute.segments, 0 ≤ s.scenic_rating ∧ 0 ≤ s.cultural_significance)
    (hd : 0 ≤ route.distance) (hc : 0 ≤ route.cost) (hpop : 0 ≤ route.population)
    (hw : ∀ x, p.fastest = some x ∨ p.cheapest = some x ∨ p.scenic = some x
        ∨ p.quiet = some x → 0 ≤ x) :
    (0 ≤ _calculate_route_score month ml aroute up
      ∧ _calculate_route_score month ml aroute up ≤ 5)
    ∧ (0 ≤ get_route_score route p ∧ get_route_score route p ≤ weightSum p) :=
  ⟨calc_route_score_bounds month ml aroute up hseg,
   get_route_score_bounds route p hd hc hpop hw⟩

unseal Rat.add Rat.mul Rat.inv Rat.sub in
/-- Witness for the amended C1 at concrete inputs. -/
theorem C1_witness :
    (0 ≤ _calculate_route_score 1 none routeTop upPlain
      ∧ _calculate_route_score 1 none routeTop upPlain ≤ 5)
    ∧ (0 ≤ get_route_score routeZero prefsFast1
      ∧ get_route_score routeZero prefsFast1 ≤ weightSum prefsFast1) :=
  C1_amended_score_bounds 1 none routeTop upPlain routeZero prefsFast1
    (by decide) (by decide) (by decide) (by decide)
    (by
      intro x hx
      rcases hx with h | h | h | h <;> simp [prefsFast1] at h
      simp [← h])

/-- `recommend_routes` restated through its named stages (definitional). -/
theorem recommend_routes_eq (dist : Dist) (cities : List City)
    (attractions_data : List Attraction) (origin destination : String)
    (p : Preferences) (budget : Option ℚ) (duration_days : Option ℤ) :
    RouteRecommender.recommend_routes dist cities attractions_data origin
        destination p budget duration_days
      = if guardB cities origin destination then
          ((durationFilter duration_days (budgetFilter budget
              (List.insertionSort scoreGe
                (candidates dist cities attractions_data origin destination p)))).take
            max_routes_per_request,
           updatedCatalog dist cities origin destination)
        else ([], cities) := rfl

/-- Both hard filters only ever remove elements. -/
theorem budgetFilter_subset (budget : Option ℚ) (l : List Route) :
    budgetFilter budget l ⊆ l := by
  unfold budgetFilter
  split
  · exact List.filter_subset' _
  · exact fun _ h => h

/-- The duration filter only ever removes elements. -/
theorem durationFilter_subset (duration_days : Option ℤ) (l : List Route) :
    durationFilter duration_days l ⊆ l := by
  unfold durationFilter
  split
  · exact List.filter_subset' _
  · exact fun _ h => h

/-- The hard filters preserve sortedness. -/
theorem budgetFilter_pairwise (budget : Option ℚ) (l : List Route)
    (h : List.Pairwise scoreGe l) :
    List.Pairwise scoreGe (budgetFilter budget l) := by
  unfold budgetFilter
  split
  · exact h.filter _
  · exact h

/-- The duration filter preserves sortedness. -/
theorem durationFilter_pairwise (duration_days : Option ℤ) (l : List Route)
    (h : List.Pairwise scoreGe l) :
    List.Pairwise scoreGe (durationFilter duration_days l) := by
  unfold durationFilter
  split
  · exact h.filter _
  · exact h

/-- Surviving the budget filter with a nonzero budget means the cost bound
holds. -/
theorem mem_budgetFilter (b : ℚ) (hb : b ≠ 0) (l : List Route) (r : Route)
    (h : r ∈ budgetFilter (some b) l) : r.cost ≤ b := by
  unfold budgetFilter at h
  rw [if_pos (by simp [truthyNum, hb])] at h
  simpa using (List.mem_filter.mp h).2

/-- Surviving the duration filter with a nonzero duration means the duration
bound holds. -/
theorem mem_durationFilter (t : ℤ) (ht : t ≠ 0) (l : List Route) (r : Route)
    (h : r ∈ durationFilter (some t) l) : r.duration ≤ (t : ℚ) * 24 := by
  unfold durationFilter at h
  rw [if_pos (by simp [truthyInt, ht])] at h
  simpa using (List.mem_filter.mp h).2

/-- A nonzero budget strictly below every element's cost empties the list. -/
theorem budgetFilter_eq_nil (b : ℚ) (hb : b ≠ 0) (l : List Route)
    (h : ∀ r ∈ l, b < r.cost) : budgetFilter (some b) l = [] := by
  unfold budgetFilter
  rw [if_pos (by simp [truthyNum, hb])]
  rw [List.filter_eq_nil_iff]
  intro r hr
  simpa using not_le.mpr (h r hr)

/-- The duration filter of an empty list is empty. -/
theorem durationFilter_nil (duration_days : Option ℤ) :
    durationFilter duration_days [] = [] := by
  unfold durationFilter
  split <;> rfl

/-- The candidate list holds the direct route plus at most three with-stop
routes. -/
theorem candidates_length_le (dist : Dist) (cities : List City)
    (attractions_data : List Attraction) (origin destination : String)
    (p : Preferences) :
    (candidates dist cities attractions_data origin destination p).length ≤ 4 := by
  unfold candidates
  simp only [List.length_cons]
  have h1 := List.length_filterMap_le
    (_create_route_with_stops dist attractions_data
      (find_intermediate_cities dist
        ((find_city_coordinates cities origin).1.getD 0)
        ((find_city_coordinates cities origin).2.getD 0)
        ((find_city_coordinates cities destination).1.getD 0)
        ((find_city_coordinates cities destination).2.getD 0) cities).1
      origin destination p)
    ((find_intermediate_cities dist
        ((find_city_coordinates cities origin).1.getD 0)
        ((find_city_coordinates cities origin).2.getD 0)
        ((find_city_coordinates cities destination).1.getD 0)
        ((find_city_coordinates cities destination).2.getD 0) cities).2.take 3)
  have h2 := List.length_take_le 3
    (find_intermediate_cities dist
        ((find_city_coordinates cities origin).1.getD 0)
        ((find_city_coordinates cities origin).2.getD 0)
        ((find_city_coordinates cities destination).1.getD 0)
        ((find_city_coordinates cities destination).2.getD 0) cities).2
  omega

unseal Rat.add Rat.mul Rat.inv Rat.sub in
/-- Counterexample to C5: a supplied budget of 0 is strictly below every
candidate's cost (the only candidate costs 20), yet the result is
non-empty — the source tests `if budget:`, so a zero budget disables the
filter instead of emptying the result. -/
theorem C5_counterexample :
    ((RouteRecommender.recommend_routes merDist [cityO, cityB] [] "o" "b"
        prefsFast1 (some 0) none).1.all (fun r => decide (0 < r.cost)) = true)
    ∧ (RouteRecommender.recommend_routes merDist [cityO, cityB] [] "o" "b"
        prefsFast1 (some 0) none).1 ≠ [] := by
  refine ⟨?_, ?_⟩ <;> decide

/-- C5 amended: the ranker sorts by score descending (stably), then applies
the budget and duration hard filters — each only when its argument is
supplied *and nonzero* (Python truthiness) — and truncates to the configured
maximum of 5; a supplied *nonzero* budget strictly below every candidate's
cost yields an empty result. -/
theorem C5_amended_sort_filter_truncate
    (dist : Dist) (cities : List City) (attractions_data : List Attraction)
    (origin destination : String) (p : Preferences)
    (budget : Option ℚ) (duration_days : Option ℤ) :
    List.Pairwise scoreGe
      (RouteRecommender.recommend_routes dist cities attractions_data origin
        destination p budget duration_days).1
    ∧ (RouteRecommender.recommend_routes dist cities attractions_data origin
        destination p budget duration_days).1.length ≤ max_routes_per_request
    ∧ (∀ b, budget = some b → b ≠ 0 →
        ∀ r ∈ (RouteRecommender.recommend_routes dist cities attractions_data
          origin destination p budget duration_days).1, r.cost ≤ b)
    ∧ (∀ t, duration_days = some t → t ≠ 0 →
        ∀ r ∈ (RouteRecommender.recommend_routes dist cities attractions_data
          origin destination p budget duration_days).1,
          r.duration ≤ (t : ℚ) * 24)
    ∧ (∀ b, budget = some b → b ≠ 0 →
        (∀ r ∈ (RouteRecommender.recommend_routes dist cities attractions_data
            origin destination p none none).1, b < r.cost) →
        (RouteRecommender.recommend_routes dist cities attractions_data origin
          destination p budget duration_days).1 = []) := by
  rw [recommend_routes_eq dist cities attractions_data origin destination p
      budget duration_days,
    recommend_routes_eq dist cities attractions_data origin destination p
      none none]
  by_cases hg : guardB cities origin destination = true
  · simp only [if_pos hg]
    have hsorted : List.Pairwise scoreGe (List.insertionSort scoreGe
        (candidates dist cities attractions_data origin destination p)) :=
      List.sorted_insertionSort scoreGe _
    have hlenL : (List.insertionSort scoreGe
        (candidates dist cities attractions_data origin destination p)).length
        ≤ max_routes_per_request := by
      rw [List.length_insertionSort]
      calc (candidates dist cities attractions_data origin destination p).length
          ≤ 4 := candidates_length_le _ _ _ _ _ _
        _ ≤ max_routes_per_request := by norm_num [max_routes_per_request]
    refine ⟨?_, ?_, ?_, ?_, ?_⟩
    · exact ((durationFilter_pairwise _ _
        (budgetFilter_pairwise _ _ hsorted)).sublist (List.take_sublist _ _))
    · exact List.length_take_le _ _
    · rintro b rfl hbne r hr
      exact mem_budgetFilter b hbne _ r
        (durationFilter_subset _ _ (List.take_subset _ _ hr))
    · rintro t rfl htne r hr
      exact mem_durationFilter t htne _ r (List.take_subset _ _ hr)
    · rintro b rfl hbne hall
      have htake : (durationFilter none (budgetFilter none
          (List.insertionSort scoreGe
            (candidates dist cities attractions_data origin destination p)))).take
          max_routes_per_request
          = List.insertionSort scoreGe
            (candidates dist cities attractions_data origin destination p) :=
        List.take_of_length_le hlenL
      rw [htake] at hall
      have hempty : budgetFilter (some b) (List.insertionSort scoreGe
          (candidates dist cities attractions_data origin destination p)) = [] :=
        budgetFilter_eq_nil b hbne _ hall
      rw [hempty, durationFilter_nil]
      simp
  · simp only [if_neg hg]
    simp

unseal Rat.add Rat.mul Rat.inv Rat.sub in
/-- Witness for the amended C5: a supplied nonzero budget of 1 is strictly
below the only candidate's cost of 20, and the result is empty. -/
theorem C5_witness :
    (RouteRecommender.recommend_routes merDist [cityO, cityB] [] "o" "b"
        prefsFast1 (some 1) none).1 = [] :=
  (C5_amended_sort_filter_truncate merDist [cityO, cityB] [] "o" "b"
      prefsFast1 (some 1) none).2.2.2.2 1 rfl (by norm_num) (by decide)

/-- Coordinate resolution is unaffected by the detour-field mutation. -/
theorem find_city_coordinates_map_cityUpdate (dist : Dist) (a b c' d' : ℚ)
    (cities : List City) (nm : String) :
    find_city_coordinates (cities.map (cityUpdate dist a b c' d')) nm
      = find_city_coordinates cities nm := by
  induction cities with
  | nil => rfl
  | cons x xs ih =>
    have hname : (cityUpdate dist a b c' d' x).name = x.name :=
      ((cityUpdate_fields dist a b c' d' x).1).symm
    have hlat : (cityUpdate dist a b c' d' x).lat = x.lat :=
      ((cityUpdate_fields dist a b c' d' x).2.1).symm
    have hlng : (cityUpdate dist a b c' d' x).lng = x.lng :=
      ((cityUpdate_fields dist a b c' d' x).2.2.1).symm
    cases hpx : (lowerName x.name == lowerName nm) <;>
      simp_all [find_city_coordinates, List.find?_cons, hname, hlat, hlng]

/-- A `filterMap` whose function hits on every element keeps the length. -/
theorem length_filterMap_of_all_some {α β : Type} (f : α → Option β)
    (l : List α) (h : ∀ a ∈ l, (f a).isSome) :
    (l.filterMap f).length = l.length := by
  induction l with
  | nil => rfl
  | cons x xs ih =>
    rcases hx : f x with _ | y
    · exact absurd (h x (List.mem_cons_self x xs)) (by simp [hx])
    · simp [List.filterMap_cons, hx,
        ih (fun a ha => h a (List.mem_cons_of_mem _ ha))]

/-- `_create_route_with_stops` produces a route whenever both endpoints
resolve. -/
theorem create_route_isSome (dist : Dist) (attractions_data : List Attraction)
    (cities : List City) (origin destination : String) (p : Preferences)
    (ic : City) (la ln da dn : ℚ)
    (ho : find_city_coordinates cities origin = (some la, some ln))
    (hd : find_city_coordinates cities destination = (some da, some dn)) :
    (_create_route_with_stops dist attractions_data cities origin destination
      p ic).isSome := by
  unfold _create_route_with_stops
  rw [ho, hd]
  rfl

/-- C2 amended: when both endpoints resolve *with truthy (nonzero)
coordinates* and no constraints are supplied, the result holds at least the
direct candidate; and it holds more than one candidate whenever some catalog
entry passes the generator's full acceptance test (both strict
partial-distance checks and detour ratio < 1.5) — a detour ratio below 1.5
alone does not suffice. -/
theorem C2_amended_candidate_counts
    (dist : Dist) (cities : List City) (attractions_data : List Attraction)
    (origin destination : String) (p : Preferences) (la ln da dn : ℚ)
    (ho : find_city_coordinates cities origin = (some la, some ln))
    (hd : find_city_coordinates cities destination = (some da, some dn))
    (hla : la ≠ 0) (hln : ln ≠ 0) (hda : da ≠ 0) (hdn : dn ≠ 0) :
    1 ≤ (RouteRecommender.recommend_routes dist cities attractions_data origin
        destination p none none).1.length
    ∧ ((∃ c ∈ cities, acceptsB dist la ln da dn c = true) →
        2 ≤ (RouteRecommender.recommend_routes dist cities attractions_data
          origin destination p none none).1.length) := by
  have hg : guardB cities origin destination = true := by
    simp [guardB, ho, hd, truthyCoord, hla, hln, hda, hdn]
  rw [recommend_routes_eq, if_pos hg]
  have hcand : candidates dist cities attractions_data origin destination p
      = direct_route origin destination (dist la ln da dn) p
        :: ((find_intermediate_cities dist la ln da dn cities).2.take 3).filterMap
            (_create_route_with_stops dist attractions_data
              (find_intermediate_cities dist la ln da dn cities).1 origin
              destination p) := by
    unfold candidates
    rw [ho, hd]
    rfl
  constructor
  · show 1 ≤ ((List.insertionSort scoreGe
      (candidates dist cities attractions_data origin destination p)).take
        max_routes_per_request).length
    rw [List.length_take, List.length_insertionSort, hcand]
    simp only [List.length_cons, max_routes_per_request]
    omega
  · rintro ⟨c, hc, hacc⟩
    have hfic1 : (find_intermediate_cities dist la ln da dn cities).1
        = cities.map (cityUpdate dist la ln da dn) := rfl
    have hfind2 : cityUpdate dist la ln da dn c
        ∈ (find_intermediate_cities dist la ln da dn cities).2 := by
      unfold find_intermediate_cities
      rw [List.mem_insertionSort]
      exact List.mem_filterMap.mpr ⟨c, hc, by rw [if_pos hacc]⟩
    have hlen2 : 1 ≤ (find_intermediate_cities dist la ln da dn cities).2.length :=
      List.length_pos.mpr (List.ne_nil_of_mem hfind2)
    have htk : 1 ≤ ((find_intermediate_cities dist la ln da dn cities).2.take 3).length := by
      rw [List.length_take]
      omega
    have hall : ∀ ic ∈ (find_intermediate_cities dist la ln da dn cities).2.take 3,
        (_create_route_with_stops dist attractions_data
          (find_intermediate_cities dist la ln da dn cities).1 origin
          destination p ic).isSome := by
      intro ic _
      apply create_route_isSome dist attractions_data _ origin destination p ic
        la ln da dn
      · rw [hfic1, find_city_coordinates_map_cityUpdate]
        exact ho
      · rw [hfic1, find_city_coordinates_map_cityUpdate]
        exact hd
    have hstops := length_filterMap_of_all_some
      (_create_route_with_stops dist attractions_data
        (find_intermediate_cities dist la ln da dn cities).1 origin
        destination p)
      ((find_intermediate_cities dist la ln da dn cities).2.take 3) hall
    show 2 ≤ ((List.insertionSort scoreGe
      (candidates dist cities attractions_data origin destination p)).take
        max_routes_per_request).length
    rw [List.length_take, List.length_insertionSort, hcand]
    simp only [List.length_cons, hstops, max_routes_per_request]
    omega

unseal Rat.add Rat.mul Rat.inv Rat.sub in
/-- Counterexample to C2 (both halves).  First: in the catalog `[o, b, l]`,
`l` has detour ratio 5/4 < 1.5 yet the call returns a single candidate,
because `l`'s distance from the origin (45) exceeds the direct distance
(40) — a detour ratio below 1.5 alone is not the acceptance test.  Second:
`"e"` and `"b2"` both resolve in the catalog `[e, b2]` and their direct
distance 30 is positive, yet the call returns no candidate at all, because
the resolved latitude 0 is falsy and fails the source's `if not all([...])`
guard. -/
theorem C2_counterexample :
    ((merDist 10 10 55 10 + merDist 55 10 50 10) / merDist 10 10 50 10 < 3/2
      ∧ 0 < merDist 10 10 50 10
      ∧ (RouteRecommender.recommend_routes merDist [cityO, cityB, cityL] []
          "o" "b" prefsFast1 none none).1.length = 1)
    ∧ (([cityE, cityB2].find? (fun c => lowerName c.name == lowerName "e")).isSome = true
      ∧ ([cityE, cityB2].find? (fun c => lowerName c.name == lowerName "b2")).isSome = true
      ∧ 0 < merDist 0 20 30 20
      ∧ (RouteRecommender.recommend_routes merDist [cityE, cityB2] []
          "e" "b2" prefsFast1 none none).1 = []) := by
  exact ⟨⟨by decide, by decide, by decide⟩, by decide, by decide, by decide, by decide⟩

unseal Rat.add Rat.mul Rat.inv Rat.sub in
/-- Witness for the amended C2: in the catalog `[o, b, w]` the midpoint `w`
passes the full acceptance test and the call indeed returns two candidates. -/
theorem C2_witness :
    2 ≤ (RouteRecommender.recommend_routes merDist [cityO, cityB, cityW] []
        "o" "b" prefsFast1 none none).1.length :=
  (C2_amended_candidate_counts merDist [cityO, cityB, cityW] [] "o" "b"
    prefsFast1 10 10 50 10 (by decide) (by decide) (by decide) (by decide)
    (by decide) (by decide)).2 ⟨cityW, by decide, by decide⟩

/-- C3: a catalog entry is accepted as an intermediate waypoint iff both its
partial distances are strictly below the direct distance and its detour
ratio is strictly below 1.5 (the accepted entry being the same dict with its
`detour_ratio` key set); the accepted list is sorted ascending by detour
ratio; and — with no constraints supplied — the returned candidates are
exactly (up to the score ordering) the direct route plus the with-stop
routes materialized from the first three accepted waypoints. -/
theorem C3_acceptance_sort_and_top3
    (dist : Dist) (cities : List City) (attractions_data : List Attraction)
    (origin destination : String) (p : Preferences) (la ln da dn : ℚ)
    (ho : find_city_coordinates cities origin = (some la, some ln))
    (hd : find_city_coordinates cities destination = (some da, some dn))
    (hla : la ≠ 0) (hln : ln ≠ 0) (hda : da ≠ 0) (hdn : dn ≠ 0) :
    (∀ c', c' ∈ (find_intermediate_cities dist la ln da dn cities).2 ↔
      ∃ c ∈ cities,
        (dist la ln c.lat c.lng < dist la ln da dn
          ∧ dist c.lat c.lng da dn < dist la ln da dn
          ∧ (dist la ln c.lat c.lng + dist c.lat c.lng da dn)
              / dist la ln da dn < 3/2)
        ∧ c' = { c with detour := some (detourOf dist la ln da dn c) })
    ∧ List.Pairwise detourLe (find_intermediate_cities dist la ln da dn cities).2
    ∧ List.Perm
        (RouteRecommender.recommend_routes dist cities attractions_data origin
          destination p none none).1
        (direct_route origin destination (dist la ln da dn) p
          :: ((find_intermediate_cities dist la ln da dn cities).2.take 3).filterMap
            (_create_route_with_stops dist attractions_data
              (find_intermediate_cities dist la ln da dn cities).1 origin
              destination p)) := by
  have hcand : candidates dist cities attractions_data origin destination p
      = direct_route origin destination (dist la ln da dn) p
        :: ((find_intermediate_cities dist la ln da dn cities).2.take 3).filterMap
            (_create_route_with_stops dist attractions_data
              (find_intermediate_cities dist la ln da dn cities).1 origin
              destination p) := by
    unfold candidates
    rw [ho, hd]
    rfl
  refine ⟨?_, ?_, ?_⟩
  · intro c'
    show c' ∈ List.insertionSort detourLe (cities.filterMap (fun c =>
      if acceptsB dist la ln da dn c then some (cityUpdate dist la ln da dn c)
      else none)) ↔ _
    rw [List.mem_insertionSort, List.mem_filterMap]
    constructor
    · rintro ⟨c, hc, hsome⟩
      by_cases hacc : acceptsB dist la ln da dn c = true
      · have h3 := hacc
        unfold acceptsB at h3
        simp only [Bool.and_eq_true, decide_eq_true_eq] at h3
        refine ⟨c, hc, ⟨h3.1.1, h3.1.2, h3.2⟩, ?_⟩
        rw [if_pos hacc] at hsome
        have hcu : cityUpdate dist la ln da dn c = c' := Option.some.inj hsome
        rw [← hcu]
        unfold cityUpdate
        rw [if_pos hacc]
      · rw [if_neg hacc] at hsome
        simp at hsome
    · rintro ⟨c, hc, ⟨h1, h2, h3⟩, rfl⟩
      have hacc : acceptsB dist la ln da dn c = true := by
        unfold acceptsB
        simp only [Bool.and_eq_true, decide_eq_true_eq]
        exact ⟨⟨h1, h2⟩, h3⟩
      refine ⟨c, hc, ?_⟩
      rw [if_pos hacc]
      unfold cityUpdate
      rw [if_pos hacc]
  · exact List.sorted_insertionSort detourLe _
  · have hg : guardB cities origin destination = true := by
      simp [guardB, ho, hd, truthyCoord, hla, hln, hda, hdn]
    rw [recommend_routes_eq, if_pos hg]
    have hlenL : (List.insertionSort scoreGe
        (candidates dist cities attractions_data origin destination p)).length
        ≤ max_routes_per_request := by
      rw [List.length_insertionSort]
      calc (candidates dist cities attractions_data origin destination p).length
          ≤ 4 := candidates_length_le _ _ _ _ _ _
        _ ≤ max_routes_per_request := by norm_num [max_routes_per_request]
    show List.Perm ((List.insertionSort scoreGe
      (candidates dist cities attractions_data origin destination p)).take
        max_routes_per_request) _
    rw [List.take_of_length_le hlenL]
    have hperm := List.perm_insertionSort scoreGe
      (candidates dist cities attractions_data origin destination p)
    nth_rewrite 2 [hcand] at hperm
    exact hperm

unseal Rat.add Rat.mul Rat.inv Rat.sub in
/-- Witness for C3 at the concrete three-city meridian catalog. -/
theorem C3_witness :
    (∀ c', c' ∈ (find_intermediate_cities merDist 10 10 50 10
        [cityO, cityB, cityW]).2 ↔
      ∃ c ∈ [cityO, cityB, cityW],
        (merDist 10 10 c.lat c.lng < merDist 10 10 50 10
          ∧ merDist c.lat c.lng 50 10 < merDist 10 10 50 10
          ∧ (merDist 10 10 c.lat c.lng + merDist c.lat c.lng 50 10)
              / merDist 10 10 50 10 < 3/2)
        ∧ c' = { c with detour := some (detourOf merDist 10 10 50 10 c) })
    ∧ List.Pairwise detourLe (find_intermediate_cities merDist 10 10 50 10
        [cityO, cityB, cityW]).2
    ∧ List.Perm
        (RouteRecommender.recommend_routes merDist [cityO, cityB, cityW] []
          "o" "b" prefsFast1 none none).1
        (direct_route "o" "b" (merDist 10 10 50 10) prefsFast1
          :: ((find_intermediate_cities merDist 10 10 50 10
              [cityO, cityB, cityW]).2.take 3).filterMap
            (_create_route_with_stops merDist []
              (find_intermediate_cities merDist 10 10 50 10
                [cityO, cityB, cityW]).1 "o" "b" prefsFast1)) :=
  C3_acceptance_sort_and_top3 merDist [cityO, cityB, cityW] [] "o" "b"
    prefsFast1 10 10 50 10 (by decide) (by decide) (by decide) (by decide)
    (by decide) (by decide)

unseal Rat.add Rat.mul Rat.inv Rat.sub in
/-- Counterexample to C6 (both halves).  First: when the learned scorer
raises, the rule-based composite is *not* used unmodified — the caught
exception yields a fallback ML score of 3.0 which is still blended
(`routeFar` scores 0.225 rule-based but 1.0575 with a raising scorer).
Second: when the scorer is available the rule score entering the 0.7/0.3
blend is *not* clipped to [0, 5] first — `routeTop`'s pre-clip composite
7.15 blended with a 0-prediction gives min(5.005, 5) = 5, whereas blending
the clipped rule score 5 would give 3.5. -/
theorem C6_counterexample :
    (_calculate_route_score 7 (some mlRaise) routeFar upPlain
      ≠ _calculate_route_score 7 none routeFar upPlain)
    ∧ (_calculate_route_score 4 (some mlZero) routeTop upGroup5
      ≠ (7/10) * _calculate_route_score 4 none routeTop upGroup5
        + (3/10) * max 0 (min 5 0)) := by
  exact ⟨by decide, by decide⟩

/-- C6 amended: with a missing scorer the rule-based composite (capped at 5
at the very end) is used unmodified and nothing can raise; with a scorer
whose `predict` raises, the exception is caught and the fallback ML score
3.0 is blended in its place; with a successful prediction the final score is
`min(0.7 × rule_pre_cap + 0.3 × clip(prediction), 5)` — the ML term is
clipped to [0, 5] before blending but the rule term is capped only after. -/
theorem C6_amended_blend_and_fallback
    (month : ℕ) (predict : MlModel) (route : ARoute) (up : UserPreferences)
    (h : route.segments ≠ []) :
    _calculate_route_score month none route up
        = min (base_score month route up) 5
    ∧ (∀ e, predict (mlFeatures route up) = Except.error e →
        _calculate_route_score month (some predict) route up
          = min (base_score month route up * (7/10) + 3 * (3/10)) 5)
    ∧ (∀ q, predict (mlFeatures route up) = Except.ok q →
        _calculate_route_score month (some predict) route up
          = min (base_score month route up * (7/10)
              + max 0 (min 5 q) * (3/10)) 5
        ∧ 0 ≤ max 0 (min 5 q) ∧ max 0 (min 5 q) ≤ 5) := by
  have hne : route.segments.isEmpty = false := by
    cases hseg : route.segments with
    | nil => exact absurd hseg h
    | cons x xs => rfl
  refine ⟨?_, ?_, ?_⟩
  · unfold _calculate_route_score
    simp [hne]
  · intro e he
    unfold _calculate_route_score _get_ml_score
    simp only [hne, Bool.false_eq_true, if_false]
    rw [he]
  · intro q hq
    refine ⟨?_, le_max_left _ _, max_le (by norm_num) (min_le_left _ _)⟩
    unfold _calculate_route_score _get_ml_score
    simp only [hne, Bool.false_eq_true, if_false]
    rw [hq]

unseal Rat.add Rat.mul Rat.inv Rat.sub in
/-- Witness for the amended C6 at concrete inputs (the raising scorer on
`routeFar` in July). -/
theorem C6_witness :
    _calculate_route_score 7 none routeFar upPlain
        = min (base_score 7 routeFar upPlain) 5
    ∧ (∀ e, mlRaise (mlFeatures routeFar upPlain) = Except.error e →
        _calculate_route_score 7 (some mlRaise) routeFar upPlain
          = min (base_score 7 routeFar upPlain * (7/10) + 3 * (3/10)) 5)
    ∧ (∀ q, mlRaise (mlFeatures routeFar upPlain) = Except.ok q →
        _calculate_route_score 7 (some mlRaise) routeFar upPlain
          = min (base_score 7 routeFar upPlain * (7/10)
              + max 0 (min 5 q) * (3/10)) 5
        ∧ 0 ≤ max 0 (min 5 q) ∧ max 0 (min 5 q) ≤ 5) :=
  C6_amended_blend_and_fallback 7 mlRaise routeFar upPlain (by decide)

/-- Every segment the query returns comes from a table row that passed the
`WHERE` clause; ids are carried over unchanged. -/
theorem mem_get_route_segments (table : List SegmentRow) (c : RouteConstraints)
    (s : RouteSegment) (h : s ∈ _get_route_segments table c) :
    ∃ row ∈ table,
      s.origin_city_id = row.origin_city_id
      ∧ s.destination_city_id = row.destination_city_id
      ∧ row.origin_city_id ∉ c.avoid_cities
      ∧ row.destination_city_id ∉ c.avoid_cities := by
  unfold _get_route_segments at h
  rw [List.mem_map] at h
  obtain ⟨row, hrow, rfl⟩ := h
  rw [List.mem_filter] at hrow
  have hfilter := hrow.2
  simp only [Bool.and_eq_true, Bool.not_eq_true'] at hfilter
  refine ⟨row, hrow.1, rfl, rfl, ?_, ?_⟩
  · simpa using hfilter.1.2
  · simpa using hfilter.2

unseal Rat.add Rat.mul Rat.inv Rat.sub in
/-- Counterexample to C7: with a self-loop row 1→1 in the segment table
(nothing in the code forbids one), the advanced recommender returns a
`with_waypoints` candidate whose intermediate city *equals the origin*. -/
theorem C7_counterexample :
    ((AdvancedRouteRecommender.recommend_routes [rowSelfLoop, rowDirect] 1 none
        upPlain consOneTwo 5).any
      (fun r => r.waypoints == [consOneTwo.origin_city_id])) = true := by
  decide

/-- C7 amended: a waypoint of a returned candidate is never in the caller's
avoid-set (the SQL filter removes every segment touching it); and *provided
the segment table has no self-loop rows*, the waypoint also differs from
both origin and destination. -/
theorem C7_amended_waypoints_safe
    (table : List SegmentRow) (month : ℕ) (ml : Option MlModel)
    (up : UserPreferences) (c : RouteConstraints) (num : ℕ)
    (hnl : ∀ row ∈ table, row.origin_city_id ≠ row.destination_city_id) :
    ∀ r ∈ AdvancedRouteRecommender.recommend_routes table month ml up c num,
      ∀ w ∈ r.waypoints,
        w ∉ c.avoid_cities ∧ w ≠ c.origin_city_id
          ∧ w ≠ c.destination_city_id := by
  intro r hr w hw
  unfold AdvancedRouteRecommender.recommend_routes at hr
  have hr2 := List.take_subset _ _ hr
  rw [List.mem_insertionSort, List.mem_map] at hr2
  obtain ⟨r0, hr0, rfl⟩ := hr2
  have hw0 : w ∈ r0.waypoints := hw
  unfold _generate_route_combinations at hr0
  rw [List.mem_append] at hr0
  rcases hr0 with hr0 | hr0
  · rw [List.mem_filterMap] at hr0
    obtain ⟨s, hs, hsome⟩ := hr0
    by_cases hcond : s.origin_city_id = c.origin_city_id
        ∧ s.destination_city_id = c.destination_city_id
    · rw [if_pos hcond] at hsome
      obtain rfl := Option.some.inj hsome
      simp at hw0
    · rw [if_neg hcond] at hsome
      simp at hsome
  · rw [List.mem_flatMap] at hr0
    obtain ⟨s1, hs1, hmem⟩ := hr0
    rw [List.mem_filterMap] at hmem
    obtain ⟨s2, hs2, hsome⟩ := hmem
    by_cases hcond : s1.origin_city_id = c.origin_city_id
        ∧ s1.destination_city_id = s2.origin_city_id
        ∧ s2.destination_city_id = c.destination_city_id
    · rw [if_pos hcond] at hsome
      obtain rfl := Option.some.inj hsome
      simp only [List.mem_singleton] at hw0
      subst hw0
      obtain ⟨row1, hrow1, ho1, hd1, hav1o, hav1d⟩ :=
        mem_get_route_segments table c s1 hs1
      obtain ⟨row2, hrow2, ho2, hd2, hav2o, hav2d⟩ :=
        mem_get_route_segments table c s2 hs2
      refine ⟨?_, ?_, ?_⟩
      · rw [hd1]
        exact hav1d
      · rw [← hcond.1, hd1, ho1]
        exact (hnl row1 hrow1).symm
      · rw [← hcond.2.2, hcond.2.1, ho2, hd2]
        exact hnl row2 hrow2
    · rw [if_neg hcond] at hsome
      simp at hsome

unseal Rat.add Rat.mul Rat.inv Rat.sub in
/-- Witness for the amended C7: the two-leg table `[1→3, 3→2]` has no
self-loops; the returned with-waypoints candidate through city 3 satisfies
all three conditions. -/
theorem C7_witness :
    (3 : ℤ) ∉ consOneTwo.avoid_cities ∧ (3 : ℤ) ≠ consOneTwo.origin_city_id
      ∧ (3 : ℤ) ≠ consOneTwo.destination_city_id :=
  C7_amended_waypoints_safe [rowLeg1, rowLeg2] 1 none upPlain consOneTwo 5
    (by decide)
    ⟨"with_waypoints", [⟨1, 3, 10, 1, 0, 0, 0, 0, ""⟩, ⟨3, 2, 10, 1, 0, 0, 0, 0, ""⟩],
      20, 2, 0, [3], 301/125⟩
    (by decide) 3 (by decide)
